import Mathlib

/-!
Shallow embedding of `src/quote-Telegram-Bot.py`: a two-task Prefect flow that
generates a motivational quote via the Gemini API (`generate_quote`) and sends
it to a Telegram chat (`to_telegram`), composed by `main_flow`.

External effects are modelled as explicit inputs:
* the Gemini backend call (`llm.invoke`/`response.content`) is an
  `Except String String` — either the response text content or the `str` of the
  raised exception;
* the Telegram send (`asyncio.run(send_via_ptb())`) is an `Except String Unit` —
  either success or the `str` of the raised exception;
* the environment credentials `TELEGRAM_TOKEN` / `TELEGRAM_CHAT_ID` are
  `Option String` (`os.getenv` yields `None` when unset).

Observable behaviour (printed lines, client construction, outgoing API calls,
task invocations) is recorded as an explicit `Event` trace, and the Python
exception raised by each function is the `Except` error of its result.
-/

namespace QuoteBot

/-- `leadsWith pat s` is true when `pat` occurs at the start of `s`. -/
def leadsWith : List Char → List Char → Bool
  | [], _ => true
  | _ :: _, [] => false
  | p :: ps, c :: cs => (p == c) && leadsWith ps cs

/-- `occursIn pat s` is true when `pat` occurs contiguously somewhere in `s`. -/
def occursIn (pat : List Char) : List Char → Bool
  | [] => leadsWith pat []
  | c :: cs => leadsWith pat (c :: cs) || occursIn pat cs

/-- Python's substring test `pat in s` on strings. -/
def containsSubstr (s pat : String) : Bool :=
  occursIn pat.toList s.toList

/-- Python's `str.lower()`, character by character (the substring patterns the
program tests for are all ASCII). -/
def strLower (s : String) : String :=
  String.mk (s.toList.map Char.toLower)

/-- Equality of `Except` results is decidable componentwise. -/
def exceptDecEq {ε α : Type} [DecidableEq ε] [DecidableEq α] :
    (x y : Except ε α) → Decidable (x = y)
  | Except.error a, Except.error b =>
      if h : a = b then isTrue (by rw [h])
      else isFalse fun hh => h (Except.error.inj hh)
  | Except.error _, Except.ok _ => isFalse fun hh => Except.noConfusion hh
  | Except.ok _, Except.error _ => isFalse fun hh => Except.noConfusion hh
  | Except.ok a, Except.ok b =>
      if h : a = b then isTrue (by rw [h])
      else isFalse fun hh => h (Except.ok.inj hh)

instance {ε α : Type} [DecidableEq ε] [DecidableEq α] : DecidableEq (Except ε α) :=
  exceptDecEq

/-- The four error categories of `generate_quote`'s `except` block. -/
inductive GenCategory where
  | auth
  | quota
  | network
  | internal
deriving DecidableEq, Repr

/-- The if/elif chain of `generate_quote`'s error categorization
(lines 60-71): `error_str = str(e).lower()`, then substring tests in order. -/
def genCategory (errText : String) : GenCategory :=
  let error_str := strLower errText
  if containsSubstr error_str "401" || containsSubstr error_str "api_key" then
    GenCategory.auth
  else if containsSubstr error_str "429" || containsSubstr error_str "quota" then
    GenCategory.quota
  else if containsSubstr error_str "connection" then
    GenCategory.network
  else
    GenCategory.internal

/-- The sanitized message assigned to each category in `generate_quote`. -/
def genSafeMsg : GenCategory → String
  | GenCategory.auth => "❌ Gemini Auth Error: Invalid API Key."
  | GenCategory.quota => "⏳ Gemini Quota Error: Rate limit exceeded."
  | GenCategory.network => "❌ Gemini Network Error: Failed to connect."
  | GenCategory.internal => "❌ Gemini Internal Error (Details hidden)."

/-- The fixed finite set of sanitized failure messages `generate_quote` can
print and raise. -/
def genFailureMsgs : List String :=
  ["❌ Gemini Auth Error: Invalid API Key.",
   "⏳ Gemini Quota Error: Rate limit exceeded.",
   "❌ Gemini Network Error: Failed to connect.",
   "❌ Gemini Internal Error (Details hidden)."]

/-- One outgoing `bot.sendMessage(...)` call with its arguments. -/
structure SendCall where
  token : String
  chat_id : String
  text : String
  parse_mode : String
deriving DecidableEq, Repr

/-- Observable events of a run: printed lines, task invocations by the flow,
Telegram `Bot` client construction, and outgoing send calls. -/
inductive Event where
  | printLine (line : String)
  | genInvoked
  | dispInvoked (arg : String)
  | botInit (token : String)
  | sendCall (c : SendCall)
deriving DecidableEq, Repr

/-- The initialization log line of `generate_quote` (line 25). -/
def genInitLine : String := "\n⏰ ACTION TIME! Initiating connection to Gemini AI..."

/-- The horizontal separator printed around the quote (lines 48, 50). -/
def separatorLine : String := "------------------------------------------------"

/-- `generate_quote` (lines 19-76): on backend success it prints the quote and
returns `response.content` unchanged; on any exception it prints only the
sanitized category message and raises `Exception(safe_msg)`. -/
def generate_quote (backend : Except String String) :
    List Event × Except String String :=
  match backend with
  | Except.ok content =>
      ([Event.printLine genInitLine,
        Event.printLine separatorLine,
        Event.printLine ("🤖 AI MENTOR SAYS:\n" ++ content),
        Event.printLine separatorLine],
       Except.ok content)
  | Except.error e =>
      let safe_msg := genSafeMsg (genCategory e)
      ([Event.printLine genInitLine, Event.printLine safe_msg],
       Except.error safe_msg)

/-- The four error categories of `to_telegram`'s `except` block. -/
inductive TelCategory where
  | connection
  | timeout
  | ssl
  | unknown
deriving DecidableEq, Repr

/-- The if/elif chain of `to_telegram`'s error categorization (lines 114-126):
`error_str = str(e).lower()`, then substring tests in order. -/
def telCategory (errText : String) : TelCategory :=
  let error_str := strLower errText
  if containsSubstr error_str "connection" || containsSubstr error_str "dns" then
    TelCategory.connection
  else if containsSubstr error_str "timeout" then
    TelCategory.timeout
  else if containsSubstr error_str "ssl" then
    TelCategory.ssl
  else
    TelCategory.unknown

/-- The sanitized message assigned to each category in `to_telegram`. -/
def telSafeMsg : TelCategory → String
  | TelCategory.connection => "❌ Network Error: Failed to connect to Telegram API."
  | TelCategory.timeout => "⏳ Timeout Error: Telegram API did not respond."
  | TelCategory.ssl => "🔒 SSL Error: Certificate verification failed."
  | TelCategory.unknown => "❌ Telegram Send Failed: Unknown error occurred."

/-- The fixed finite set of sanitized failure messages `to_telegram`'s
`except` block can print and raise. -/
def telFailureMsgs : List String :=
  ["❌ Network Error: Failed to connect to Telegram API.",
   "⏳ Timeout Error: Telegram API did not respond.",
   "🔒 SSL Error: Certificate verification failed.",
   "❌ Telegram Send Failed: Unknown error occurred."]

/-- Python truthiness test `not x` for an optional string: true when the
variable is unset (`None`) or the empty string. -/
def pyFalsy : Option String → Bool
  | none => true
  | some s => s == ""

/-- The two kinds of exception `to_telegram` can raise: the `ValueError` of the
credential guard (line 87) and the generic `Exception` of the sanitizer
(line 133). `generate_quote` raises only generic `Exception`s (line 76). -/
inductive PyError where
  | valueError (msg : String)
  | exception (msg : String)
deriving DecidableEq, Repr

/-- The credential-guard log line of `to_telegram` (line 86). -/
def missingCredsLine : String := "❌ Error: Telegram credentials are missing."

/-- `to_telegram` (lines 78-133): guards the credentials before the `try`
(raising `ValueError("Missing Telegram Credentials")`), otherwise constructs
the `Bot`, performs the send, and on any exception in the `try` prints only the
sanitized category message and raises `Exception(safe_msg)`. -/
def to_telegram (TELEGRAM_TOKEN TELEGRAM_CHAT_ID : Option String) (msg : String)
    (network : Except String Unit) : List Event × Except PyError Unit :=
  if pyFalsy TELEGRAM_TOKEN || pyFalsy TELEGRAM_CHAT_ID then
    ([Event.printLine missingCredsLine],
     Except.error (PyError.valueError "Missing Telegram Credentials"))
  else
    let token := TELEGRAM_TOKEN.getD ""
    let chat := TELEGRAM_CHAT_ID.getD ""
    match network with
    | Except.ok _ =>
        ([Event.botInit token,
          Event.printLine "🚀 Sending message via Python-Telegram-Bot...",
          Event.sendCall ⟨token, chat, msg, "Markdown"⟩,
          Event.printLine "✅ Success: Message sent to Telegram (via PTB)!"],
         Except.ok ())
    | Except.error e =>
        let safe_msg := telSafeMsg (telCategory e)
        ([Event.botInit token,
          Event.printLine "🚀 Sending message via Python-Telegram-Bot...",
          Event.sendCall ⟨token, chat, msg, "Markdown"⟩,
          Event.printLine safe_msg],
         Except.error (PyError.exception safe_msg))

/-- `main_flow` (lines 135-143): invokes `generate_quote`, then `to_telegram`
on the returned quote; a raised exception aborts the flow. -/
def main_flow (backend : Except String String)
    (TELEGRAM_TOKEN TELEGRAM_CHAT_ID : Option String)
    (network : Except String Unit) : List Event × Except PyError Unit :=
  let g := generate_quote backend
  match g.2 with
  | Except.error e => (Event.genInvoked :: g.1, Except.error (PyError.exception e))
  | Except.ok quote =>
      let t := to_telegram TELEGRAM_TOKEN TELEGRAM_CHAT_ID quote network
      (Event.genInvoked :: g.1 ++ Event.dispInvoked quote :: t.1, t.2)

/-- Prefect task configuration as given by the `@task` decorator arguments.
A scalar `retry_delay_seconds` means the same fixed delay before every retry;
`none` means the Prefect default (no configured delay); `retries` defaults
to `0`. -/
structure TaskConfig where
  name : String
  retries : Nat
  retry_delay_seconds : Option Nat
deriving DecidableEq, Repr

/-- Line 19: `@task(name="Generate Quote", retries=3, retry_delay_seconds=5)`. -/
def generateQuoteTask : TaskConfig := ⟨"Generate Quote", 3, some 5⟩

/-- Line 78: `@task(name="Send to Telegram")` — Prefect defaults, no retries. -/
def toTelegramTask : TaskConfig := ⟨"Send to Telegram", 0, none⟩

/-- The sequence of delays the harness waits between successive attempts of a
task: one entry per allowed retry, each equal to the scalar
`retry_delay_seconds` (fixed delay, by construction not growing). -/
def delaySchedule (cfg : TaskConfig) : List Nat :=
  List.replicate cfg.retries (cfg.retry_delay_seconds.getD 0)

/-- The arguments of the `dispInvoked` events of a trace, in order. -/
def dispArgs (tr : List Event) : List String :=
  tr.filterMap fun ev =>
    match ev with
    | Event.dispInvoked a => some a
    | _ => none

/-- How many `genInvoked` events a trace holds. -/
def genInvocations (tr : List Event) : Nat :=
  tr.countP fun ev =>
    match ev with
    | Event.genInvoked => true
    | _ => false

/-- Whether a trace holds any `botInit` or `sendCall` event, i.e. any client
construction or outgoing network call. -/
def touchesNetwork (tr : List Event) : Bool :=
  tr.any fun ev =>
    match ev with
    | Event.botInit _ => true
    | Event.sendCall _ => true
    | _ => false

/-- Generic priority-ordered first-match selection: the category of the first
rule whose test is true, else the default. -/
def firstMatch {α : Type} (rules : List (α × Bool)) (default : α) : α :=
  match rules with
  | [] => default
  | (c, b) :: rest => if b then c else firstMatch rest default

/-- The spec's words for the success value: "the trimmed response text (the
backend response's text content with surrounding whitespace removed)", i.e.
Python's `str.strip()` with default arguments. Stated spec-side, to be compared
with what `generate_quote` actually returns. -/
def specTrimmed (s : String) : String :=
  String.mk (((s.toList.dropWhile Char.isWhitespace).reverse.dropWhile
    Char.isWhitespace).reverse)

/-- Each sanitized generator message lies in the fixed finite set. -/
theorem genSafeMsg_mem (c : GenCategory) : genSafeMsg c ∈ genFailureMsgs := by
  cases c <;> decide

/-- Each sanitized dispatcher message lies in the fixed finite set. -/
theorem telSafeMsg_mem (c : TelCategory) : telSafeMsg c ∈ telFailureMsgs := by
  cases c <;> decide

/-- `to_telegram` never emits flow-level task-invocation events. -/
theorem dispArgs_to_telegram (tok chat : Option String) (msg : String)
    (net : Except String Unit) : dispArgs (to_telegram tok chat msg net).1 = [] := by
  unfold to_telegram
  by_cases hb : (pyFalsy tok || pyFalsy chat) = true
  · simp [hb, dispArgs]
  · cases net <;> simp [hb, dispArgs]

/-- `to_telegram`'s trace holds no `genInvoked` event. -/
theorem genInvocations_to_telegram (tok chat : Option String) (msg : String)
    (net : Except String Unit) :
    genInvocations (to_telegram tok chat msg net).1 = 0 := by
  unfold to_telegram
  by_cases hb : (pyFalsy tok || pyFalsy chat) = true
  · simp [hb, genInvocations]
  · cases net <;> simp [hb, genInvocations]

/-- The trace of a successful flow run, unfolded once. -/
theorem main_flow_ok_trace (q : String) (tok chat : Option String)
    (net : Except String Unit) :
    (main_flow (Except.ok q) tok chat net).1
      = (Event.genInvoked :: (generate_quote (Except.ok q)).1)
          ++ Event.dispInvoked q :: (to_telegram tok chat q net).1 := rfl

example : genCategory "401 API_KEY_INVALID" = GenCategory.auth := by decide

example : genCategory "Error 429: quota exceeded" = GenCategory.quota := by decide

example : telCategory "Read TIMEOUT on request" = TelCategory.timeout := by decide

example : telCategory "connection timeout" = TelCategory.connection := by decide

example :
    (to_telegram none (some "42") "hi" (Except.ok ())).2
      = Except.error (PyError.valueError "Missing Telegram Credentials") := by
  decide

/-- Claim C3: every underlying error whose text contains "401" or "api_key"
case-insensitively is classified by the Generator as an authentication error,
and the printed and re-raised message is the fixed authentication-failure
string, containing none of the original error text. -/
theorem C3_auth_classification (e : String)
    (h : containsSubstr (strLower e) "401" = true
      ∨ containsSubstr (strLower e) "api_key" = true) :
    genCategory e = GenCategory.auth
    ∧ (generate_quote (Except.error e)).2
        = Except.error "❌ Gemini Auth Error: Invalid API Key."
    ∧ (generate_quote (Except.error e)).1
        = [Event.printLine genInitLine,
           Event.printLine "❌ Gemini Auth Error: Invalid API Key."] := by
  have hcat : genCategory e = GenCategory.auth := by
    unfold genCategory
    rcases h with h | h <;> simp [h]
  refine ⟨hcat, ?_, ?_⟩ <;> simp [generate_quote, hcat, genSafeMsg]

/-- Concrete instance of C3 at the error text "401 UNAUTHORIZED: bad API_KEY". -/
theorem C3_auth_classification_witness :
    (containsSubstr (strLower "401 UNAUTHORIZED: bad API_KEY") "401" = true
      ∨ containsSubstr (strLower "401 UNAUTHORIZED: bad API_KEY") "api_key" = true)
    ∧ genCategory "401 UNAUTHORIZED: bad API_KEY" = GenCategory.auth
    ∧ (generate_quote (Except.error "401 UNAUTHORIZED: bad API_KEY")).2
        = Except.error "❌ Gemini Auth Error: Invalid API Key." :=
  ⟨Or.inl (by decide),
   (C3_auth_classification "401 UNAUTHORIZED: bad API_KEY" (Or.inl (by decide))).1,
   (C3_auth_classification "401 UNAUTHORIZED: bad API_KEY" (Or.inl (by decide))).2.1⟩

/-- Claim C4 as stated is false on the code: "401: quota exceeded" contains
"quota", yet the Generator classifies it as an authentication error and raises
the authentication message, not the fixed quota-failure string. -/
theorem C4_counterexample :
    containsSubstr (strLower "401: quota exceeded") "quota" = true
    ∧ genCategory "401: quota exceeded" = GenCategory.auth
    ∧ (generate_quote (Except.error "401: quota exceeded")).2
        ≠ Except.error "⏳ Gemini Quota Error: Rate limit exceeded." := by
  decide

/-- Claim C4 (amended): every underlying error whose text contains "429" or
"quota" case-insensitively, and contains neither "401" nor "api_key" (which
the Generator tests first), is classified as a quota error, with the fixed
quota-failure string printed and re-raised. -/
theorem C4_quota_classification (e : String)
    (hq : containsSubstr (strLower e) "429" = true
      ∨ containsSubstr (strLower e) "quota" = true)
    (hn1 : containsSubstr (strLower e) "401" = false)
    (hn2 : containsSubstr (strLower e) "api_key" = false) :
    genCategory e = GenCategory.quota
    ∧ (generate_quote (Except.error e)).2
        = Except.error "⏳ Gemini Quota Error: Rate limit exceeded."
    ∧ (generate_quote (Except.error e)).1
        = [Event.printLine genInitLine,
           Event.printLine "⏳ Gemini Quota Error: Rate limit exceeded."] := by
  have hcat : genCategory e = GenCategory.quota := by
    unfold genCategory
    rcases hq with h | h <;> simp [h, hn1, hn2]
  refine ⟨hcat, ?_, ?_⟩ <;> simp [generate_quote, hcat, genSafeMsg]

/-- Concrete instance of amended C4 at the error text "429 Too Many Requests". -/
theorem C4_quota_classification_witness :
    (containsSubstr (strLower "429 Too Many Requests") "429" = true
      ∨ containsSubstr (strLower "429 Too Many Requests") "quota" = true)
    ∧ containsSubstr (strLower "429 Too Many Requests") "401" = false
    ∧ containsSubstr (strLower "429 Too Many Requests") "api_key" = false
    ∧ genCategory "429 Too Many Requests" = GenCategory.quota :=
  ⟨Or.inl (by decide), by decide, by decide,
   (C4_quota_classification "429 Too Many Requests" (Or.inl (by decide))
     (by decide) (by decide)).1⟩

/-- Claim C5 as stated is false on the code: "connection timeout" contains
"timeout", yet the Dispatcher classifies it as a connection error (tested
first); likewise "timeout during ssl handshake" contains "ssl", yet is
classified as a timeout error. -/
theorem C5_counterexample :
    (containsSubstr (strLower "connection timeout") "timeout" = true
      ∧ telCategory "connection timeout" ≠ TelCategory.timeout)
    ∧ (containsSubstr (strLower "timeout during ssl handshake") "ssl" = true
      ∧ telCategory "timeout during ssl handshake" ≠ TelCategory.ssl) := by
  decide

/-- Claim C5 (amended): the Dispatcher classifies an error containing
"connection" or "dns" (case-insensitively) as a connection error; one
containing "timeout" but neither "connection" nor "dns" as a timeout error;
and one containing "ssl" but none of "connection", "dns", "timeout" as a
TLS/certificate error. -/
theorem C5_dispatcher_classification (e : String) :
    ((containsSubstr (strLower e) "connection" = true
        ∨ containsSubstr (strLower e) "dns" = true) →
      telCategory e = TelCategory.connection)
    ∧ (containsSubstr (strLower e) "connection" = false →
        containsSubstr (strLower e) "dns" = false →
        containsSubstr (strLower e) "timeout" = true →
        telCategory e = TelCategory.timeout)
    ∧ (containsSubstr (strLower e) "connection" = false →
        containsSubstr (strLower e) "dns" = false →
        containsSubstr (strLower e) "timeout" = false →
        containsSubstr (strLower e) "ssl" = true →
        telCategory e = TelCategory.ssl) := by
  refine ⟨?_, ?_, ?_⟩
  · intro h
    unfold telCategory
    rcases h with h | h <;> simp [h]
  · intro h1 h2 h3
    unfold telCategory
    simp [h1, h2, h3]
  · intro h1 h2 h3 h4
    unfold telCategory
    simp [h1, h2, h3, h4]

/-- Concrete instances of amended C5 at "DNS lookup failed", "Read timeout",
and "SSL handshake failed". -/
theorem C5_dispatcher_classification_witness :
    telCategory "DNS lookup failed" = TelCategory.connection
    ∧ telCategory "Read timeout" = TelCategory.timeout
    ∧ telCategory "SSL handshake failed" = TelCategory.ssl :=
  ⟨(C5_dispatcher_classification "DNS lookup failed").1 (Or.inr (by decide)),
   (C5_dispatcher_classification "Read timeout").2.1 (by decide) (by decide)
     (by decide),
   (C5_dispatcher_classification "SSL handshake failed").2.2 (by decide)
     (by decide) (by decide) (by decide)⟩

/-- Claim C6 as stated is false on the code: for the backend response text
"  Code fearlessly.  " (which is not equal to its trimmed form), the Generator
returns the text unchanged, not its trimmed form. -/
theorem C6_counterexample :
    (generate_quote (Except.ok "  Code fearlessly.  ")).2
      = Except.ok "  Code fearlessly.  "
    ∧ specTrimmed "  Code fearlessly.  " = "Code fearlessly."
    ∧ (generate_quote (Except.ok "  Code fearlessly.  ")).2
        ≠ Except.ok (specTrimmed "  Code fearlessly.  ") := by
  decide

/-- Claim C6 (amended): on success the Generator returns the backend response's
text content unchanged — `response.content` is never trimmed. -/
theorem C6_returns_content (content : String) :
    (generate_quote (Except.ok content)).2 = Except.ok content := rfl

/-- Claim C9: both classifiers are priority-ordered first-match chains — the
Generator tests authentication, then quota, then connection, and the
Dispatcher tests connection, then timeout, then TLS — so an error text
matching several categories is assigned the earliest tested one. -/
theorem C9_priority_first_match (s : String) :
    (genCategory s = firstMatch
        [(GenCategory.auth,
            containsSubstr (strLower s) "401" || containsSubstr (strLower s) "api_key"),
         (GenCategory.quota,
            containsSubstr (strLower s) "429" || containsSubstr (strLower s) "quota"),
         (GenCategory.network, containsSubstr (strLower s) "connection")]
        GenCategory.internal
      ∧ telCategory s = firstMatch
        [(TelCategory.connection,
            containsSubstr (strLower s) "connection" || containsSubstr (strLower s) "dns"),
         (TelCategory.timeout, containsSubstr (strLower s) "timeout"),
         (TelCategory.ssl, containsSubstr (strLower s) "ssl")]
        TelCategory.unknown)
    ∧ ((containsSubstr (strLower s) "429" = true ∨ containsSubstr (strLower s) "quota" = true) →
        (containsSubstr (strLower s) "401" = true ∨ containsSubstr (strLower s) "api_key" = true) →
        genCategory s = GenCategory.auth)
    ∧ (containsSubstr (strLower s) "timeout" = true →
        (containsSubstr (strLower s) "connection" = true ∨ containsSubstr (strLower s) "dns" = true) →
        telCategory s = TelCategory.connection) := by
  refine ⟨⟨rfl, rfl⟩, ?_, ?_⟩
  · intro _ ha
    unfold genCategory
    rcases ha with h | h <;> simp [h]
  · intro _ hc
    unfold telCategory
    rcases hc with h | h <;> simp [h]

/-- Concrete instance of C9: "401 quota" matches both authentication and quota
but gets authentication; "connection timeout" matches both connection and
timeout but gets connection. -/
theorem C9_priority_first_match_witness :
    genCategory "401 quota" = GenCategory.auth
    ∧ telCategory "connection timeout" = TelCategory.connection :=
  ⟨(C9_priority_first_match "401 quota").2.1 (Or.inr (by decide)) (Or.inl (by decide)),
   (C9_priority_first_match "connection timeout").2.2 (by decide) (Or.inl (by decide))⟩

/-- Claim C1: on any failure, each component prints and re-raises only a
sanitized classified message drawn from its fixed finite message set — the
output is a function of the error's category alone, so two runs whose
underlying errors fall in the same category produce identical printed traces
and identical re-raised messages, and the original error text never flows into
either. (The Dispatcher's credential guard raises the fixed string
"Missing Telegram Credentials".) -/
theorem C1_sanitized_failures :
    (∀ e : String,
        (generate_quote (Except.error e)).2 = Except.error (genSafeMsg (genCategory e))
        ∧ genSafeMsg (genCategory e) ∈ genFailureMsgs
        ∧ (generate_quote (Except.error e)).1
            = [Event.printLine genInitLine, Event.printLine (genSafeMsg (genCategory e))])
    ∧ (∀ e1 e2 : String, genCategory e1 = genCategory e2 →
        generate_quote (Except.error e1) = generate_quote (Except.error e2))
    ∧ (∀ tok chat : Option String, ∀ msg e : String,
        (to_telegram tok chat msg (Except.error e)).2
          = Except.error (PyError.valueError "Missing Telegram Credentials")
        ∨ ((to_telegram tok chat msg (Except.error e)).2
            = Except.error (PyError.exception (telSafeMsg (telCategory e)))
          ∧ telSafeMsg (telCategory e) ∈ telFailureMsgs))
    ∧ (∀ tok chat : Option String, ∀ msg e1 e2 : String,
        telCategory e1 = telCategory e2 →
        to_telegram tok chat msg (Except.error e1)
          = to_telegram tok chat msg (Except.error e2)) := by
  refine ⟨?_, ?_, ?_, ?_⟩
  · intro e
    exact ⟨rfl, genSafeMsg_mem _, rfl⟩
  · intro e1 e2 h
    simp only [generate_quote, h]
  · intro tok chat msg e
    unfold to_telegram
    by_cases hb : (pyFalsy tok || pyFalsy chat) = true
    · simp [hb]
    · simp only [Bool.not_eq_true] at hb
      simp [hb]
      exact telSafeMsg_mem _
  · intro tok chat msg e1 e2 h
    unfold to_telegram
    by_cases hb : (pyFalsy tok || pyFalsy chat) = true
    · simp [hb]
    · simp only [Bool.not_eq_true] at hb
      simp [hb, h]

/-- Concrete instance of C1: two distinct connection-category generator errors
produce identical outputs, and two distinct timeout-category dispatcher errors
produce identical outputs. -/
theorem C1_sanitized_failures_witness :
    generate_quote (Except.error "ConnectionError: peer reset")
      = generate_quote (Except.error "NewConnectionError: refused")
    ∧ to_telegram (some "TOKEN") (some "42") "hi"
        (Except.error "Read TIMEOUT on request")
      = to_telegram (some "TOKEN") (some "42") "hi"
        (Except.error "timeout awaiting response") :=
  ⟨C1_sanitized_failures.2.1 "ConnectionError: peer reset"
     "NewConnectionError: refused" (by decide),
   C1_sanitized_failures.2.2.2 (some "TOKEN") (some "42") "hi"
     "Read TIMEOUT on request" "timeout awaiting response" (by decide)⟩

/-- Claim C2: one flow invocation runs the Generator once and then the
Dispatcher once, the Dispatcher receiving exactly the Generator's returned
string; when the Generator fails, the Dispatcher is never invoked and the run
fails with the Generator's sanitized message. -/
theorem C2_flow_sequencing (tok chat : Option String) (net : Except String Unit) :
    (∀ q : String,
        dispArgs (main_flow (Except.ok q) tok chat net).1 = [q]
        ∧ genInvocations (main_flow (Except.ok q) tok chat net).1 = 1
        ∧ ∃ pre post,
            (main_flow (Except.ok q) tok chat net).1
              = pre ++ Event.dispInvoked q :: post
            ∧ Event.genInvoked ∈ pre)
    ∧ (∀ e : String,
        dispArgs (main_flow (Except.error e) tok chat net).1 = []
        ∧ genInvocations (main_flow (Except.error e) tok chat net).1 = 1
        ∧ (main_flow (Except.error e) tok chat net).2
            = Except.error (PyError.exception (genSafeMsg (genCategory e)))) := by
  constructor
  · intro q
    refine ⟨?_, ?_, ?_⟩
    · have htel := dispArgs_to_telegram tok chat q net
      unfold dispArgs at htel ⊢
      rw [main_flow_ok_trace]
      simp [generate_quote, List.filterMap_append, htel]
    · have htel := genInvocations_to_telegram tok chat q net
      unfold genInvocations at htel ⊢
      rw [main_flow_ok_trace]
      simp [generate_quote, List.countP_append, htel]
    · exact ⟨Event.genInvoked :: (generate_quote (Except.ok q)).1,
        (to_telegram tok chat q net).1, main_flow_ok_trace q tok chat net,
        List.mem_cons_self _ _⟩
  · intro e
    exact ⟨rfl, rfl, rfl⟩

/-- Claim C7: when the bot token or the chat identifier is unset or empty, the
Dispatcher fails at once with the missing-credentials `ValueError`, its trace
holds no client construction and no network call, and its task is configured
with zero retries. -/
theorem C7_missing_credentials (tok chat : Option String) (msg : String)
    (net : Except String Unit)
    (h : pyFalsy tok = true ∨ pyFalsy chat = true) :
    (to_telegram tok chat msg net).2
      = Except.error (PyError.valueError "Missing Telegram Credentials")
    ∧ (to_telegram tok chat msg net).1 = [Event.printLine missingCredsLine]
    ∧ touchesNetwork (to_telegram tok chat msg net).1 = false
    ∧ toTelegramTask.retries = 0 := by
  have hb : (pyFalsy tok || pyFalsy chat) = true := by
    rcases h with h | h <;> simp [h]
  unfold to_telegram
  refine ⟨?_, ?_, ?_, rfl⟩ <;> simp [hb, touchesNetwork]

/-- Concrete instance of C7: an empty token with a set chat identifier. -/
theorem C7_missing_credentials_witness :
    (to_telegram (some "") (some "42") "hello" (Except.ok ())).2
      = Except.error (PyError.valueError "Missing Telegram Credentials")
    ∧ touchesNetwork (to_telegram (some "") (some "42") "hello" (Except.ok ())).1
        = false :=
  ⟨(C7_missing_credentials (some "") (some "42") "hello" (Except.ok ())
      (Or.inl (by decide))).1,
   (C7_missing_credentials (some "") (some "42") "hello" (Except.ok ())
      (Or.inl (by decide))).2.2.1⟩

/-- Claim C8: the Generator task is declared with 3 retries and a fixed
5-second delay before each retry (a constant schedule, not exponential
backoff), while the Dispatcher task is declared with no retries. -/
theorem C8_retry_configuration :
    generateQuoteTask.retries = 3
    ∧ generateQuoteTask.retry_delay_seconds = some 5
    ∧ delaySchedule generateQuoteTask = [5, 5, 5]
    ∧ toTelegramTask.retries = 0
    ∧ delaySchedule toTelegramTask = [] := by
  decide

/-- Claim C10: the Dispatcher's missing-credentials failure bypasses the
substring classifier — it is a `ValueError` with the exact message
"Missing Telegram Credentials", a different exception shape from the generic
sanitized `Exception`s — and every other Dispatcher failure is a generic
`Exception` carrying one of the four classified network-failure strings. -/
theorem C10_valueerror_bypass (tok chat : Option String) (msg : String)
    (net : Except String Unit) (err : PyError)
    (h : (to_telegram tok chat msg net).2 = Except.error err) :
    (((pyFalsy tok || pyFalsy chat) = true
        ∧ err = PyError.valueError "Missing Telegram Credentials")
      ∨ ((pyFalsy tok || pyFalsy chat) = false
        ∧ ∃ e : String, net = Except.error e
            ∧ err = PyError.exception (telSafeMsg (telCategory e))
            ∧ telSafeMsg (telCategory e) ∈ telFailureMsgs))
    ∧ (∀ m : String,
        PyError.valueError "Missing Telegram Credentials" ≠ PyError.exception m) := by
  refine ⟨?_, fun m hc => PyError.noConfusion hc⟩
  unfold to_telegram at h
  by_cases hb : (pyFalsy tok || pyFalsy chat) = true
  · rw [if_pos hb] at h
    exact Or.inl ⟨hb, (Except.error.inj h).symm⟩
  · simp only [Bool.not_eq_true] at hb
    rw [if_neg (by simp [hb])] at h
    cases net with
    | ok _ => exact absurd h (by simp)
    | error e =>
        refine Or.inr ⟨hb, e, rfl, ?_, telSafeMsg_mem _⟩
        simpa using h.symm

/-- Concrete instance of C10 at an unset token and at a set-credentials
timeout failure. -/
theorem C10_valueerror_bypass_witness :
    ((pyFalsy none || pyFalsy (some "42")) = true
      ∧ PyError.valueError "Missing Telegram Credentials"
          = PyError.valueError "Missing Telegram Credentials")
    ∨ ((pyFalsy none || pyFalsy (some "42")) = false
      ∧ ∃ e : String, (Except.ok () : Except String Unit) = Except.error e
          ∧ PyError.valueError "Missing Telegram Credentials"
              = PyError.exception (telSafeMsg (telCategory e))
          ∧ telSafeMsg (telCategory e) ∈ telFailureMsgs) :=
  (C10_valueerror_bypass none (some "42") "hi" (Except.ok ())
    (PyError.valueError "Missing Telegram Credentials") (by decide)).1

end QuoteBot
